import Mathlib

/-!
Verification development for the data-quality validation job in `src/main.py`
(an AWS Glue / PySpark script).  The script reads a CSV dataset, evaluates a
fixed catalog of data-quality rules with Spark SQL semantics, collects the
per-rule violation counts into a list of issue records, and writes the list
out as CSV.

Shallow embedding notes:
* A CSV dataset loaded through the Glue DynamicFrame reader has every column
  typed as string, so a cell is `Option String` (`none` models SQL NULL).
* Spark SQL boolean expressions use three-valued logic; `DataFrame.filter`
  keeps exactly the rows on which the predicate evaluates to TRUE.  The type
  `TV` with Kleene connectives models this.
* `rlike` with a `^...$`-anchored regex is a full-string match; the concrete
  patterns of the script are transcribed as decidable predicates on strings.
* `cast('double')` on a string column yields NULL when the string does not
  parse as a Java double; `castsToDouble` models acceptance of that cast
  (decimal/scientific literals, `f`/`d` suffixes and the special infinity/NaN
  spellings; hexadecimal float literals are not modelled).
* `to_date` on a string column yields NULL when the string is not a
  `yyyy-[m]m-[d]d` calendar date; valid dates are encoded as the naturally
  ordered number `y*10000 + m*100 + d`.
* Referencing a column that is absent from the dataset makes the first action
  on the query raise an AnalysisException, and `spark.createDataFrame([])`
  raises `ValueError: can not infer schema from empty dataset`; the runner
  `validate_data_quality` returns these as `Except.error`.
-/

/-- Three-valued truth values of Spark SQL boolean expressions. -/
inductive TV where
  | tt
  | ff
  | nl
deriving DecidableEq, Repr

/-- Embed a two-valued boolean into `TV`. -/
def TV.ofBool (b : Bool) : TV := if b then .tt else .ff

/-- Kleene conjunction (Spark SQL AND). -/
def TV.and : TV → TV → TV
  | .ff, _ => .ff
  | _, .ff => .ff
  | .tt, .tt => .tt
  | _, _ => .nl

/-- Kleene disjunction (Spark SQL OR). -/
def TV.or : TV → TV → TV
  | .tt, _ => .tt
  | _, .tt => .tt
  | .ff, .ff => .ff
  | _, _ => .nl

/-- Kleene negation (Spark SQL NOT). -/
def TV.neg : TV → TV
  | .tt => .ff
  | .ff => .tt
  | .nl => .nl

/-- A filter keeps a row exactly when the predicate evaluates to TRUE. -/
def tvHolds : TV → Bool
  | .tt => true
  | _ => false

/-- Characters that Java trimming treats as blank (code points up to 0x20). -/
def isJavaSpace (c : Char) : Bool := c.toNat ≤ 32

/-- Strip leading and trailing blank characters. -/
def trimChars (cs : List Char) : List Char :=
  ((cs.dropWhile isJavaSpace).reverse.dropWhile isJavaSpace).reverse

/-- Drop one optional leading sign character. -/
def dropSign (cs : List Char) : List Char :=
  match cs with
  | c :: rest => if c == '+' || c == '-' then rest else cs
  | [] => []

/-- Nonempty string of decimal digits. -/
def allDigits (cs : List Char) : Bool := !cs.isEmpty && cs.all Char.isDigit

/-- Exponent part of a double literal: optional sign then digits. -/
def expOk (cs : List Char) : Bool := allDigits (dropSign cs)

/-- Mantissa of a double literal: digits with an optional decimal point,
at least one digit overall. -/
def mantissaOk (cs : List Char) : Bool :=
  let ip := cs.takeWhile Char.isDigit
  let rest := cs.dropWhile Char.isDigit
  match rest with
  | [] => !ip.isEmpty
  | '.' :: frac => frac.all Char.isDigit && (!ip.isEmpty || !frac.isEmpty)
  | _ => false

/-- Does the string survive Spark's string-to-double cast (line 99 of
`src/main.py`, `col(field).cast('double')`)?  Models trimming, the special
NaN/Infinity spellings, an optional sign, a decimal or scientific literal and
the Java `f`/`F`/`d`/`D` suffix. -/
def castsToDouble (s : String) : Bool :=
  let cs := trimChars s.data
  let low := cs.map Char.toLower
  if low == "nan".data || low == "infinity".data || low == "+infinity".data ||
      low == "-infinity".data || low == "inf".data || low == "+inf".data ||
      low == "-inf".data then
    true
  else
    let cs1 := dropSign cs
    let cs2 :=
      match cs1.getLast? with
      | some c => if c == 'f' || c == 'F' || c == 'd' || c == 'D' then cs1.dropLast else cs1
      | none => cs1
    let mant := cs2.takeWhile (fun c => !(c == 'e' || c == 'E'))
    let rest := cs2.dropWhile (fun c => !(c == 'e' || c == 'E'))
    match rest with
    | [] => mantissaOk mant
    | _ :: ex => mantissaOk mant && expOk ex

/-- Full-string match of the regex `^[0-9]{4}-[0-9]{2}-[0-9]{2}$`
(line 87 of `src/main.py`). -/
def matchesDatePattern (s : String) : Bool :=
  match s.data with
  | [y1, y2, y3, y4, h1, m1, m2, h2, d1, d2] =>
    y1.isDigit && y2.isDigit && y3.isDigit && y4.isDigit && h1 == '-' &&
      m1.isDigit && m2.isDigit && h2 == '-' && d1.isDigit && d2.isDigit
  | _ => false

/-- Full-string match of the regex `^[0-9]{9}$` (used for both `EmployeeSSN`
and `EmployerFEIN`, lines 113 and 149 of `src/main.py`). -/
def matchesNineDigits (s : String) : Bool :=
  s.data.length == 9 && s.data.all Char.isDigit

/-- Full-string match of the regex `^[A-Z]{2}$` (line 125 of `src/main.py`). -/
def matchesStateCode (s : String) : Bool :=
  s.data.length == 2 && s.data.all (fun c => 'A' ≤ c && c ≤ 'Z')

/-- Full-string match of the regex `^[0-9]{5}(?:-[0-9]{4})?$`
(line 137 of `src/main.py`). -/
def matchesPostalCode (s : String) : Bool :=
  match s.data with
  | [a, b, c, d, e] =>
    a.isDigit && b.isDigit && c.isDigit && d.isDigit && e.isDigit
  | [a, b, c, d, e, h, f, g, i, j] =>
    a.isDigit && b.isDigit && c.isDigit && d.isDigit && e.isDigit &&
      h == '-' && f.isDigit && g.isDigit && i.isDigit && j.isDigit
  | _ => false

/-- Numeric value of a string of decimal digits. -/
def natOfDigits (cs : List Char) : Nat :=
  cs.foldl (fun n c => n * 10 + (c.toNat - 48)) 0

/-- Proleptic Gregorian leap-year rule. -/
def isLeapYear (y : Nat) : Bool :=
  y % 4 == 0 && (y % 100 != 0 || y % 400 == 0)

/-- Number of days of month `m` in year `y`. -/
def daysInMonth (y m : Nat) : Nat :=
  if m == 2 then (if isLeapYear y then 29 else 28)
  else if m == 4 || m == 6 || m == 9 || m == 11 then 30
  else 31

/-- Spark's string-to-date conversion for `yyyy-[m]m-[d]d` shaped input:
trims the string, requires a four-digit year and one- or two-digit month and
day separated by dashes, and validates the calendar (a month outside 1..12 or
a day outside the month yields NULL, i.e. `none`).  A valid date is encoded
as `y*10000 + m*100 + d`, which orders exactly like the date. -/
def parseDate (s : String) : Option Nat :=
  let cs := trimChars s.data
  let ys := cs.takeWhile (fun c => c != '-')
  match cs.dropWhile (fun c => c != '-') with
  | '-' :: r2 =>
    let ms := r2.takeWhile (fun c => c != '-')
    match r2.dropWhile (fun c => c != '-') with
    | '-' :: ds =>
      if ys.length == 4 && ys.all Char.isDigit &&
          (ms.length == 1 || ms.length == 2) && ms.all Char.isDigit &&
          (ds.length == 1 || ds.length == 2) && ds.all Char.isDigit then
        let y := natOfDigits ys
        let m := natOfDigits ms
        let d := natOfDigits ds
        if 1 ≤ m && m ≤ 12 && 1 ≤ d && d ≤ daysInMonth y m then
          some (y * 10000 + m * 100 + d)
        else none
      else none
    | _ => none
  | _ => none

/-- Spark's `to_date` applied to a string column value: NULL in, NULL out;
otherwise parse. -/
def to_date (v : Option String) : Option Nat := v.bind parseDate

/-- A dataset row: cells addressed by column name; `none` is NULL. -/
abbrev Row := List (String × Option String)

/-- A loaded DataFrame: the column names from the CSV header plus the rows. -/
structure DataFrame where
  schema : List String
  rows : List Row

/-- Value of column `f` in row `r`; a column missing from the row reads as
NULL. -/
def getCell (r : Row) (f : String) : Option String :=
  match r.find? (fun p => p.1 == f) with
  | some p => p.2
  | none => none

/-- Spark's `df.filter(pred).count()`: the number of rows on which the
three-valued predicate evaluates to TRUE. -/
def filterCount (df : DataFrame) (p : Row → TV) : Nat :=
  (df.rows.filter (fun r => tvHolds (p r))).length

/-- The `IS NULL` test never returns NULL. -/
def tvIsNull (v : Option String) : TV := TV.ofBool v.isNone

/-- The `IS NOT NULL` test never returns NULL. -/
def tvIsNotNull (v : Option String) : TV := TV.ofBool v.isSome

/-- Anchored `rlike` on a string column value: NULL in, NULL out. -/
def tvRlike (pat : String → Bool) (v : Option String) : TV :=
  match v with
  | some s => TV.ofBool (pat s)
  | none => TV.nl

/-- The expression `col(f).cast('double').isNotNull()`: the cast of NULL is
NULL, so the test is false on NULL and otherwise reports cast success. -/
def tvCastDoubleNotNull (v : Option String) : TV :=
  match v with
  | some s => TV.ofBool (castsToDouble s)
  | none => TV.ofBool false

/-- Lexicographic order on character lists: the binary order Spark uses to
compare two string-typed columns. -/
def lexLt : List Char → List Char → Bool
  | [], [] => false
  | [], _ :: _ => true
  | _ :: _, [] => false
  | a :: as, b :: bs =>
    if a.toNat < b.toNat then true
    else if b.toNat < a.toNat then false
    else lexLt as bs

/-- Spark `>` on two string column values (CSV columns are strings, so the
comparison is the binary string order); NULL on either side yields NULL. -/
def tvGtS (a b : Option String) : TV :=
  match a, b with
  | some x, some y => TV.ofBool (lexLt y.data x.data)
  | _, _ => TV.nl

/-- Spark `<` on two string column values; NULL on either side yields NULL. -/
def tvLtS (a b : Option String) : TV :=
  match a, b with
  | some x, some y => TV.ofBool (lexLt x.data y.data)
  | _, _ => TV.nl

/-- Spark `<` on two date column values; NULL on either side yields NULL. -/
def tvLtN (a b : Option Nat) : TV :=
  match a, b with
  | some x, some y => TV.ofBool (decide (x < y))
  | _, _ => TV.nl

/-- An issue record of the validation report:
`{'field': ..., 'issue': ..., 'count': ...}`. -/
structure Issue where
  field : String
  issue : String
  count : Nat
deriving DecidableEq, Repr

/-- The required-field catalog of `src/main.py` lines 49-71, in its declared
(insertion) order: field name paired with its declared data type. -/
def required_fields : List (String × String) :=
  [("DocumentCount", "integer"),
   ("AmendedReturn", "boolean"),
   ("FAMLIPremiumStartDate", "date"),
   ("FAMLIPremiumEndDate", "date"),
   ("SettlementDate", "datetime"),
   ("EmployerLegalName", "string"),
   ("BusAdrStreet1", "string"),
   ("BusAdrCity", "string"),
   ("BusAdrStateCode", "string"),
   ("BusAdrPostalCode", "string"),
   ("BusAdrCountry", "string"),
   ("TotalWagesThisPeriod", "numeric"),
   ("PaymentAmountTotal", "numeric"),
   ("IsFinalReturn", "boolean"),
   ("EmployeeSSN", "string"),
   ("EmployeeFirstName", "string"),
   ("EmployeeLastName", "string"),
   ("YearToDateWages", "numeric"),
   ("GrossWagesThisQtr", "numeric"),
   ("SubjectWagesThisQtr", "numeric"),
   ("FAMLIContributionThisQtr", "numeric")]

/-- Line 75: `df.filter(col(field).isNull()).count()`. -/
def null_count (df : DataFrame) (field : String) : Nat :=
  filterCount df (fun r => tvIsNull (getCell r field))

/-- Lines 85-88: count of non-null values of `field` that do not match the
date pattern. -/
def date_format_issues (df : DataFrame) (field : String) : Nat :=
  filterCount df (fun r =>
    TV.and (tvIsNotNull (getCell r field))
      (TV.neg (tvRlike matchesDatePattern (getCell r field))))

/-- Lines 97-100: count of non-null values of `field` whose cast to double
is null. -/
def numeric_issues (df : DataFrame) (field : String) : Nat :=
  filterCount df (fun r =>
    TV.and (tvIsNotNull (getCell r field))
      (TV.neg (tvCastDoubleNotNull (getCell r field))))

/-- Lines 111-114: SSN format check. -/
def ssn_format_issues (df : DataFrame) : Nat :=
  filterCount df (fun r =>
    TV.and (tvIsNotNull (getCell r "EmployeeSSN"))
      (TV.neg (tvRlike matchesNineDigits (getCell r "EmployeeSSN"))))

/-- Lines 123-126: state-code format check. -/
def state_code_issues (df : DataFrame) : Nat :=
  filterCount df (fun r =>
    TV.and (tvIsNotNull (getCell r "BusAdrStateCode"))
      (TV.neg (tvRlike matchesStateCode (getCell r "BusAdrStateCode"))))

/-- Lines 135-138: postal-code format check. -/
def postal_code_issues (df : DataFrame) : Nat :=
  filterCount df (fun r =>
    TV.and (tvIsNotNull (getCell r "BusAdrPostalCode"))
      (TV.neg (tvRlike matchesPostalCode (getCell r "BusAdrPostalCode"))))

/-- Lines 147-150: FEIN format check (only where `EmployerFEIN` is
non-null). -/
def fein_issues (df : DataFrame) : Nat :=
  filterCount df (fun r =>
    TV.and (tvIsNotNull (getCell r "EmployerFEIN"))
      (TV.neg (tvRlike matchesNineDigits (getCell r "EmployerFEIN"))))

/-- Lines 161-163: rows where the premium end date, parsed as a date, is
strictly before the premium start date parsed as a date. -/
def date_order_issues (df : DataFrame) : Nat :=
  filterCount df (fun r =>
    tvLtN (to_date (getCell r "FAMLIPremiumEndDate"))
      (to_date (getCell r "FAMLIPremiumStartDate")))

/-- Lines 172-175: the wage-consistency predicate of the single filter,
`(SubjectWagesThisQtr > GrossWagesThisQtr) OR
(YearToDateWages < GrossWagesThisQtr)`. -/
def wagePred (r : Row) : TV :=
  TV.or
    (tvGtS (getCell r "SubjectWagesThisQtr") (getCell r "GrossWagesThisQtr"))
    (tvLtS (getCell r "YearToDateWages") (getCell r "GrossWagesThisQtr"))

/-- Lines 172-175: count of rows violating the wage-consistency rule. -/
def contribution_issues (df : DataFrame) : Nat :=
  filterCount df wagePred

/-- The `if count > 0: validation_results.append({...})` idiom of
`src/main.py`: an issue record is appended only for a positive count. -/
def guarded (f s : String) (n : Nat) : List Issue :=
  if 0 < n then [⟨f, s, n⟩] else []

/-- Lines 73-107 for one catalog entry: the presence check, then the format
check that applies to the declared type (only `date` and `numeric` carry a
format rule). -/
def fieldIssues (df : DataFrame) (field dtype : String) : List Issue :=
  guarded field ("Missing required field: " ++ field) (null_count df field) ++
    (if dtype == "date" then
      guarded field ("Invalid date format in " ++ field) (date_format_issues df field)
    else if dtype == "numeric" then
      guarded field ("Invalid numeric value in " ++ field) (numeric_issues df field)
    else [])

/-- The full `validation_results` list built by lines 44-181: catalog fields
in declared order (presence then format per field), then the SSN, state-code,
postal-code and FEIN checks, then the premium-date-order and
wage-consistency rules. -/
def validation_results (df : DataFrame) : List Issue :=
  (required_fields.bind (fun p => fieldIssues df p.1 p.2)) ++
    (guarded "EmployeeSSN" "Invalid SSN format" (ssn_format_issues df) ++
      (guarded "BusAdrStateCode" "Invalid state code format" (state_code_issues df) ++
        (guarded "BusAdrPostalCode" "Invalid postal code format" (postal_code_issues df) ++
          (guarded "EmployerFEIN" "Invalid FEIN format" (fein_issues df) ++
            (guarded "FAMLIPremiumDates" "End date is before start date" (date_order_issues df) ++
              guarded "WagesCalculation" "Invalid wage calculations" (contribution_issues df))))))

/-- Every column the rule filters reference, in first-evaluation order: the
21 catalog fields, then `EmployerFEIN` (referenced only by the FEIN rule). -/
def referenced_columns : List String :=
  required_fields.map Prod.fst ++ ["EmployerFEIN"]

/-- The observable outcome of one run of `validate_data_quality`
(lines 23-200): if some referenced column is absent from the dataset, the
first count that analyzes it raises an AnalysisException naming it; otherwise
the issue list is built, and `spark.createDataFrame(validation_results)` on
line 184 raises `ValueError: can not infer schema from empty dataset` when
the list is empty; otherwise the report and its timestamped output path
(line 191) are produced. -/
def validate_data_quality (df : DataFrame) (output_path timestamp : String) :
    Except String (List Issue × String) :=
  match referenced_columns.find? (fun c => !(df.schema.contains c)) with
  | some c => Except.error ("AnalysisException: cannot resolve column: " ++ c)
  | none =>
    if (validation_results df).isEmpty then
      Except.error "ValueError: can not infer schema from empty dataset"
    else
      Except.ok (validation_results df,
        output_path ++ "/validation_results_" ++ timestamp)

/-- Specification-side template of the report: the issue record of every
rule, in the fixed evaluation order stated in the spec (presence then
applicable format rule per catalog field in declared order; then SSN, state
code, postal code, FEIN; then date order; then wages), with no
positivity filtering. -/
def allRuleResults (df : DataFrame) : List Issue :=
  (required_fields.bind (fun p =>
    [⟨p.1, "Missing required field: " ++ p.1, null_count df p.1⟩] ++
      (if p.2 == "date" then
        [⟨p.1, "Invalid date format in " ++ p.1, date_format_issues df p.1⟩]
      else if p.2 == "numeric" then
        [⟨p.1, "Invalid numeric value in " ++ p.1, numeric_issues df p.1⟩]
      else []))) ++
    ([⟨"EmployeeSSN", "Invalid SSN format", ssn_format_issues df⟩] ++
      ([⟨"BusAdrStateCode", "Invalid state code format", state_code_issues df⟩] ++
        ([⟨"BusAdrPostalCode", "Invalid postal code format", postal_code_issues df⟩] ++
          ([⟨"EmployerFEIN", "Invalid FEIN format", fein_issues df⟩] ++
            ([⟨"FAMLIPremiumDates", "End date is before start date", date_order_issues df⟩] ++
              [⟨"WagesCalculation", "Invalid wage calculations", contribution_issues df⟩])))))

/-- Specification-side two-valued reading of string `>`: true only when both
operands are non-null and the right one is strictly smaller. -/
def bGt (a b : Option String) : Bool :=
  match a, b with
  | some x, some y => lexLt y.data x.data
  | _, _ => false

/-- Specification-side two-valued reading of string `<`: true only when both
operands are non-null and the left one is strictly smaller. -/
def bLt (a b : Option String) : Bool :=
  match a, b with
  | some x, some y => lexLt x.data y.data
  | _, _ => false

/-! General helper lemmas. -/

theorem filterCongr {α : Type} (p q : α → Bool) :
    ∀ (l : List α), (∀ a ∈ l, p a = q a) → l.filter p = l.filter q := by
  intro l h
  induction l with
  | nil => rfl
  | cons a t ih =>
    have ha := h a (List.mem_cons_self a t)
    have ht := ih (fun x hx => h x (List.mem_cons_of_mem a hx))
    simp [List.filter_cons, ha, ht]

theorem ofBool_holds (b : Bool) : tvHolds (TV.ofBool b) = b := by
  cases b <;> rfl

theorem ofBool_eq_tt (b : Bool) : TV.ofBool b = TV.tt ↔ b = true := by
  cases b <;> simp [TV.ofBool]

theorem tv_or_eq_tt (x y : TV) : TV.or x y = TV.tt ↔ (x = TV.tt ∨ y = TV.tt) := by
  cases x <;> cases y <;> simp [TV.or]

/-- Evaluation of the guarded conjunction used by the regex format rules:
it holds exactly on a non-null value failing the pattern. -/
theorem holds_format_pred (pat : String → Bool) (v : Option String) :
    tvHolds (TV.and (tvIsNotNull v) (TV.neg (tvRlike pat v))) =
      (match v with
       | some s => !pat s
       | none => false) := by
  cases v with
  | none => simp [tvIsNotNull, tvRlike, TV.ofBool, TV.and, tvHolds]
  | some s =>
    cases h : pat s <;>
      simp [tvIsNotNull, tvRlike, TV.ofBool, TV.and, TV.neg, tvHolds, h]

/-- Evaluation of the guarded conjunction used by the numeric format rule:
it holds exactly on a non-null value that does not cast to double. -/
theorem holds_numeric_pred (v : Option String) :
    tvHolds (TV.and (tvIsNotNull v) (TV.neg (tvCastDoubleNotNull v))) =
      (match v with
       | some s => !castsToDouble s
       | none => false) := by
  cases v with
  | none => simp [tvIsNotNull, tvCastDoubleNotNull, TV.ofBool, TV.and, tvHolds]
  | some s =>
    cases h : castsToDouble s <;>
      simp [tvIsNotNull, tvCastDoubleNotNull, TV.ofBool, TV.and, TV.neg, tvHolds, h]

/-- Evaluation of the premium-date comparison: it holds exactly when both
operands are dates and the first is strictly smaller. -/
theorem holds_ltN (a b : Option Nat) :
    tvHolds (tvLtN a b) =
      (match a, b with
       | some x, some y => decide (x < y)
       | _, _ => false) := by
  cases a with
  | none => rfl
  | some x =>
    cases b with
    | none => rfl
    | some y => cases h : decide (x < y) <;> simp [tvLtN, tvHolds, TV.ofBool, h]

theorem holds_or (x y : TV) : tvHolds (TV.or x y) = (tvHolds x || tvHolds y) := by
  cases x <;> cases y <;> rfl

theorem holds_tvGtS (a b : Option String) : tvHolds (tvGtS a b) = bGt a b := by
  cases a with
  | none => rfl
  | some x =>
    cases b with
    | none => rfl
    | some y => exact ofBool_holds _

theorem holds_tvLtS (a b : Option String) : tvHolds (tvLtS a b) = bLt a b := by
  cases a with
  | none => rfl
  | some x =>
    cases b with
    | none => rfl
    | some y => exact ofBool_holds _

theorem mem_guarded {i : Issue} {f s : String} {n : Nat} (h : i ∈ guarded f s n) :
    i = ⟨f, s, n⟩ ∧ 0 < n := by
  by_cases hn : 0 < n
  · simp [guarded, hn] at h
    exact ⟨h, hn⟩
  · simp [guarded, hn] at h

theorem one_le_of_mem_guarded {i : Issue} {f s : String} {n : Nat}
    (h : i ∈ guarded f s n) : 1 ≤ i.count := by
  obtain ⟨he, hn⟩ := mem_guarded h
  rw [he]
  exact hn

theorem field_of_mem_guarded {i : Issue} {f s : String} {n : Nat}
    (h : i ∈ guarded f s n) : i.field = f := by
  obtain ⟨he, _⟩ := mem_guarded h
  rw [he]

theorem mem_fieldIssues {df : DataFrame} {f t : String} {i : Issue}
    (h : i ∈ fieldIssues df f t) : i.field = f ∧ 1 ≤ i.count := by
  unfold fieldIssues at h
  rcases List.mem_append.1 h with h1 | h2
  · exact ⟨field_of_mem_guarded h1, one_le_of_mem_guarded h1⟩
  · by_cases hd : (t == "date") = true
    · rw [if_pos hd] at h2
      exact ⟨field_of_mem_guarded h2, one_le_of_mem_guarded h2⟩
    · rw [if_neg hd] at h2
      by_cases hm : (t == "numeric") = true
      · rw [if_pos hm] at h2
        exact ⟨field_of_mem_guarded h2, one_le_of_mem_guarded h2⟩
      · rw [if_neg hm] at h2
        simp at h2

/-- C3: every Issue record in the report carries a violation count of at
least 1, and any rule result whose count is zero is absent from the report
(zero-violation rules contribute nothing). -/
theorem c3_positive_counts (df : DataFrame) :
    (∀ i ∈ validation_results df, 1 ≤ i.count) ∧
      ∀ i ∈ allRuleResults df, i.count = 0 → i ∉ validation_results df := by
  have hpos : ∀ i ∈ validation_results df, 1 ≤ i.count := by
    intro i hi
    unfold validation_results at hi
    rcases List.mem_append.1 hi with h | h
    · rcases List.mem_bind.1 h with ⟨p, _, hip⟩
      exact (mem_fieldIssues hip).2
    · rcases List.mem_append.1 h with h | h
      · exact one_le_of_mem_guarded h
      rcases List.mem_append.1 h with h | h
      · exact one_le_of_mem_guarded h
      rcases List.mem_append.1 h with h | h
      · exact one_le_of_mem_guarded h
      rcases List.mem_append.1 h with h | h
      · exact one_le_of_mem_guarded h
      rcases List.mem_append.1 h with h | h
      · exact one_le_of_mem_guarded h
      · exact one_le_of_mem_guarded h
  refine ⟨hpos, ?_⟩
  intro i _ hzero hmem
  have := hpos i hmem
  omega

/-- C4: the date-format and numeric rules are total row counts: a rule's
count is exactly the number of rows whose cell is non-null and malformed
(fails the date pattern, respectively does not cast to double); malformed
values are tallied, never fatal, and null cells are never counted. -/
theorem c4_malformed_values_counted (df : DataFrame) (field : String) :
    date_format_issues df field =
      (df.rows.filter (fun r =>
        match getCell r field with
        | some s => !matchesDatePattern s
        | none => false)).length ∧
    numeric_issues df field =
      (df.rows.filter (fun r =>
        match getCell r field with
        | some s => !castsToDouble s
        | none => false)).length := by
  constructor
  · unfold date_format_issues filterCount
    rw [filterCongr _ _ df.rows
      (fun r _ => holds_format_pred matchesDatePattern (getCell r field))]
  · unfold numeric_issues filterCount
    rw [filterCongr _ _ df.rows (fun r _ => holds_numeric_pred (getCell r field))]

/-- C5: the premium-date-ordering rule counts exactly the rows on which both
premium dates parse and the end date is strictly earlier than the start
date; a row with a null or unparseable value on either side is not
counted. -/
theorem c5_date_order_count (df : DataFrame) :
    date_order_issues df =
      (df.rows.filter (fun r =>
        match to_date (getCell r "FAMLIPremiumEndDate"),
            to_date (getCell r "FAMLIPremiumStartDate") with
        | some e, some s => decide (e < s)
        | _, _ => false)).length := by
  unfold date_order_issues filterCount
  rw [filterCongr _ _ df.rows (fun r _ => holds_ltN _ _)]

/-- C6: the wage-consistency rule is one combined count: it equals the
number of rows on which at least one of the two wage conditions holds (a row
satisfying both is counted once), and the report never carries more than one
issue record labelled with the WagesCalculation field. -/
theorem c6_wage_single_count (df : DataFrame) :
    contribution_issues df =
      (df.rows.filter (fun r =>
        bGt (getCell r "SubjectWagesThisQtr") (getCell r "GrossWagesThisQtr") ||
          bLt (getCell r "YearToDateWages") (getCell r "GrossWagesThisQtr"))).length ∧
    (validation_results df).countP (fun i => i.field == "WagesCalculation") ≤ 1 := by
  constructor
  · unfold contribution_issues filterCount
    refine congrArg List.length (filterCongr _ _ df.rows (fun r _ => ?_))
    simp [wagePred, holds_or, holds_tvGtS, holds_tvLtS]
  · have hzero : ∀ (f s : String) (n : Nat), (f == "WagesCalculation") = false →
        (guarded f s n).countP (fun i => i.field == "WagesCalculation") = 0 := by
      intro f s n hf
      refine List.countP_eq_zero.2 (fun a ha => ?_)
      simp [field_of_mem_guarded ha, hf]
    have hb : (required_fields.bind fun q => fieldIssues df q.1 q.2).countP
        (fun i => i.field == "WagesCalculation") = 0 := by
      refine List.countP_eq_zero.2 (fun a ha => ?_)
      rcases List.mem_bind.1 ha with ⟨q, hq, haq⟩
      have hqne : ∀ q ∈ required_fields, (q.1 == "WagesCalculation") = false := by decide
      simp [(mem_fieldIssues haq).1, hqne q hq]
    have hw : (guarded "WagesCalculation" "Invalid wage calculations"
        (contribution_issues df)).countP (fun i => i.field == "WagesCalculation") ≤ 1 := by
      calc (guarded "WagesCalculation" "Invalid wage calculations"
              (contribution_issues df)).countP (fun i => i.field == "WagesCalculation")
          ≤ (guarded "WagesCalculation" "Invalid wage calculations"
              (contribution_issues df)).length := List.countP_le_length _
        _ ≤ 1 := by unfold guarded; split <;> simp
    unfold validation_results
    rw [List.countP_append, List.countP_append, List.countP_append,
      List.countP_append, List.countP_append, List.countP_append, hb,
      hzero "EmployeeSSN" _ _ (by decide), hzero "BusAdrStateCode" _ _ (by decide),
      hzero "BusAdrPostalCode" _ _ (by decide), hzero "EmployerFEIN" _ _ (by decide),
      hzero "FAMLIPremiumDates" _ _ (by decide)]
    omega

theorem filter_pos_singleton (f s : String) (n : Nat) :
    List.filter (fun i => decide (0 < i.count)) [(⟨f, s, n⟩ : Issue)] = guarded f s n := by
  by_cases hn : 0 < n <;> simp [List.filter, guarded, hn]

theorem filterBind {α β : Type} (l : List α) (g : α → List β) (p : β → Bool) :
    (l.bind g).filter p = l.bind (fun a => (g a).filter p) := by
  induction l with
  | nil => rfl
  | cons a t ih => simp [List.cons_bind, List.filter_append, ih]

theorem fieldIssues_eq_filter (df : DataFrame) (f t : String) :
    List.filter (fun i => decide (0 < i.count))
        ([⟨f, "Missing required field: " ++ f, null_count df f⟩] ++
          (if t == "date" then
            [⟨f, "Invalid date format in " ++ f, date_format_issues df f⟩]
          else if t == "numeric" then
            [⟨f, "Invalid numeric value in " ++ f, numeric_issues df f⟩]
          else [])) = fieldIssues df f t := by
  rw [List.filter_append, filter_pos_singleton]
  unfold fieldIssues
  congr 1
  by_cases hd : (t == "date") = true
  · rw [if_pos hd, if_pos hd, filter_pos_singleton]
  · rw [if_neg hd, if_neg hd]
    by_cases hm : (t == "numeric") = true
    · rw [if_pos hm, if_pos hm, filter_pos_singleton]
    · rw [if_neg hm, if_neg hm]
      rfl

/-- C7: the report is exactly the fixed-order template of all rule results
(catalog fields in declared order, presence then applicable format rule per
field; then SSN, state code, postal code, FEIN; then premium date order;
then wages) restricted to the records with a positive count. -/
theorem c7_report_order (df : DataFrame) :
    validation_results df =
      (allRuleResults df).filter (fun i => decide (0 < i.count)) := by
  unfold validation_results allRuleResults
  rw [List.filter_append, filterBind]
  congr 1
  · exact congrArg required_fields.bind
      (funext fun p => (fieldIssues_eq_filter df p.1 p.2).symm)
  · rw [List.filter_append, List.filter_append, List.filter_append,
      List.filter_append, List.filter_append, filter_pos_singleton,
      filter_pos_singleton, filter_pos_singleton, filter_pos_singleton,
      filter_pos_singleton, filter_pos_singleton]

/-- C8: validation is deterministic and the wall-clock timestamp influences
only the output path: for any dataset, runs with different timestamps yield
the same outcome up to the path component, so the issue records (order and
contents) of two runs on the same dataset coincide. -/
theorem c8_deterministic_report (df : DataFrame) (out t1 t2 : String) :
    Except.map Prod.fst (validate_data_quality df out t1) =
      Except.map Prod.fst (validate_data_quality df out t2) := by
  unfold validate_data_quality
  cases referenced_columns.find? (fun c => !(df.schema.contains c)) with
  | some c => rfl
  | none =>
    by_cases he : (validation_results df).isEmpty = true
    · rw [if_pos he, if_pos he]
    · rw [if_neg he, if_neg he]
      rfl

theorem holds_iff_tt (x : TV) : tvHolds x = true ↔ x = TV.tt := by
  cases x <;> simp [tvHolds]

/-- C10: the wage filter evaluates under three-valued OR: a row is kept
exactly when at least one disjunct is definitely true (both of its operands
non-null and in the violating order), so a null in one disjunct does not
mask a true other disjunct, and a row whose wage cells are all null is never
kept. -/
theorem c10_three_valued_or (r : Row) :
    (wagePred r = TV.tt ↔
      (bGt (getCell r "SubjectWagesThisQtr") (getCell r "GrossWagesThisQtr") = true ∨
        bLt (getCell r "YearToDateWages") (getCell r "GrossWagesThisQtr") = true)) ∧
    (getCell r "SubjectWagesThisQtr" = none ∧ getCell r "YearToDateWages" = none ∧
        getCell r "GrossWagesThisQtr" = none → wagePred r ≠ TV.tt) := by
  constructor
  · unfold wagePred
    rw [tv_or_eq_tt, ← holds_iff_tt, ← holds_iff_tt, holds_tvGtS, holds_tvLtS]
  · rintro ⟨h1, h2, h3⟩
    simp [wagePred, h1, h2, h3, tvGtS, tvLtS, TV.or]

/-- Witness for C10: a row on which the year-to-date disjunct has a null
operand is still counted because the subject-wages disjunct is true. -/
theorem c10_three_valued_or_witness :
    wagePred [("SubjectWagesThisQtr", some "5000"), ("GrossWagesThisQtr", some "4000")] =
      TV.tt :=
  (c10_three_valued_or
      [("SubjectWagesThisQtr", some "5000"), ("GrossWagesThisQtr", some "4000")]).1.mpr
    (Or.inl (by rfl))

/-- C9: a non-null premium-date value that matches the date regex but is not
a valid calendar date is invisible to the date-format rule, while its row is
excluded from the premium-date-ordering comparison because parsing yields
NULL: the two rules disagree on which values are usable dates. -/
theorem c9_pattern_parse_disagree (sch : List String) (r : Row) (f s : String)
    (hf : f = "FAMLIPremiumStartDate" ∨ f = "FAMLIPremiumEndDate")
    (hc : getCell r f = some s)
    (hm : matchesDatePattern s = true)
    (hp : parseDate s = none) :
    date_format_issues (DataFrame.mk sch [r]) f = 0 ∧
      date_order_issues (DataFrame.mk sch [r]) = 0 := by
  constructor
  · unfold date_format_issues filterCount
    have hrow : tvHolds (TV.and (tvIsNotNull (getCell r f))
        (TV.neg (tvRlike matchesDatePattern (getCell r f)))) = false := by
      rw [holds_format_pred, hc]
      simp [hm]
    simp [List.filter_cons, hrow]
  · unfold date_order_issues filterCount
    have hnone : to_date (getCell r f) = none := by
      rw [hc]
      simp [to_date, hp]
    have hrow : tvHolds (tvLtN (to_date (getCell r "FAMLIPremiumEndDate"))
        (to_date (getCell r "FAMLIPremiumStartDate"))) = false := by
      rw [holds_ltN]
      rcases hf with rfl | rfl
      · rw [hnone]
        cases to_date (getCell r "FAMLIPremiumEndDate") <;> rfl
      · rw [hnone]
    simp [List.filter_cons, hrow]

/-- Witness for C9 at the concrete value 2024-13-45: it matches the regex,
fails to parse as a date, and its row is counted by neither rule. -/
theorem c9_pattern_parse_disagree_witness :
    date_format_issues
        (DataFrame.mk ["FAMLIPremiumEndDate"] [[("FAMLIPremiumEndDate", some "2024-13-45")]])
        "FAMLIPremiumEndDate" = 0 ∧
      date_order_issues
        (DataFrame.mk ["FAMLIPremiumEndDate"] [[("FAMLIPremiumEndDate", some "2024-13-45")]]) = 0 :=
  c9_pattern_parse_disagree ["FAMLIPremiumEndDate"] [("FAMLIPremiumEndDate", some "2024-13-45")]
    "FAMLIPremiumEndDate" "2024-13-45" (Or.inr rfl) (by decide) (by decide) (by decide)

/-- C2 (amended): when a referenced column (one of the 21 catalog fields or
EmployerFEIN) is absent from the dataset schema, the run fails with an
analysis error naming the first such column rather than treating the field
as all-null; a field that IS present but whose value is null in every row is
what yields the full-row presence count, and its date and numeric format
rules count zero violations. -/
theorem c2_missing_field_amended (df : DataFrame) (out ts f : String) :
    (referenced_columns.find? (fun c => !(df.schema.contains c)) = some f →
      validate_data_quality df out ts =
        Except.error ("AnalysisException: cannot resolve column: " ++ f)) ∧
    ((∀ r ∈ df.rows, getCell r f = none) →
      null_count df f = df.rows.length ∧
        date_format_issues df f = 0 ∧ numeric_issues df f = 0) := by
  constructor
  · intro h
    unfold validate_data_quality
    rw [h]
  · intro h
    refine ⟨?_, ?_, ?_⟩
    · unfold null_count filterCount
      rw [filterCongr _ (fun _ => true) df.rows
        (fun r hr => by simp [h r hr, tvIsNull, TV.ofBool, tvHolds])]
      simp
    · unfold date_format_issues filterCount
      rw [filterCongr _ (fun _ => false) df.rows
        (fun r hr => by
          simp [h r hr, tvIsNotNull, tvRlike, TV.ofBool, TV.and, TV.neg, tvHolds])]
      simp
    · unfold numeric_issues filterCount
      rw [filterCongr _ (fun _ => false) df.rows
        (fun r hr => by
          simp [h r hr, tvIsNotNull, tvCastDoubleNotNull, TV.ofBool, TV.and, TV.neg, tvHolds])]
      simp

/-- Counterexample to C2 as stated: a one-row dataset that lacks the
DocumentCount column (and others) does not succeed with per-row missing
counts; the run errors out on the first unresolvable column. -/
theorem c2_missing_field_counterexample :
    validate_data_quality
        (DataFrame.mk ["EmployerLegalName"] [[("EmployerLegalName", some "Acme Corp")]])
        "out" "ts" =
      Except.error ("AnalysisException: cannot resolve column: " ++ "DocumentCount") := by
  rfl

/-- Witness for C2 (amended), on a dataset with no columns at all: the run
errors on DocumentCount, the first referenced column, and the (vacuous)
all-null field check gives count zero on zero rows. -/
theorem c2_missing_field_amended_witness :
    validate_data_quality (DataFrame.mk [] []) "out" "ts" =
        Except.error ("AnalysisException: cannot resolve column: " ++ "DocumentCount") ∧
      null_count (DataFrame.mk [] []) "DocumentCount" =
        (DataFrame.mk [] [] : DataFrame).rows.length :=
  ⟨(c2_missing_field_amended (DataFrame.mk [] []) "out" "ts" "DocumentCount").1 (by rfl),
    ((c2_missing_field_amended (DataFrame.mk [] []) "out" "ts" "DocumentCount").2
        (fun r hr => absurd hr (List.not_mem_nil r))).1⟩

/-- A one-row dataset on which every rule finds zero violations: all 21
catalog fields and EmployerFEIN present and well-formed, premium dates in
order, wage figures consistent. -/
def cleanRow : Row :=
  [("DocumentCount", some "1"),
   ("AmendedReturn", some "false"),
   ("FAMLIPremiumStartDate", some "2024-01-01"),
   ("FAMLIPremiumEndDate", some "2024-03-01"),
   ("SettlementDate", some "2024-01-05T00:00:00"),
   ("EmployerLegalName", some "Acme Insurance LLC"),
   ("BusAdrStreet1", some "1 Main St"),
   ("BusAdrCity", some "Denver"),
   ("BusAdrStateCode", some "CO"),
   ("BusAdrPostalCode", some "80202"),
   ("BusAdrCountry", some "US"),
   ("TotalWagesThisPeriod", some "1000.00"),
   ("PaymentAmountTotal", some "9.00"),
   ("IsFinalReturn", some "false"),
   ("EmployeeSSN", some "123456789"),
   ("EmployeeFirstName", some "Jane"),
   ("EmployeeLastName", some "Doe"),
   ("YearToDateWages", some "4000"),
   ("GrossWagesThisQtr", some "4000"),
   ("SubjectWagesThisQtr", some "4000"),
   ("FAMLIContributionThisQtr", some "36.00"),
   ("EmployerFEIN", some "123456789")]

/-- The clean one-row dataset, with every referenced column in its schema. -/
def cleanDF : DataFrame := DataFrame.mk referenced_columns [cleanRow]

/-- C1 evaluation: on a dataset with no violations the engine does build an
empty issue list, but the run then fails, because materializing the empty
list raises instead of handing an empty tabular result to the output step. -/
theorem c1_empty_report_run_fails :
    validation_results cleanDF = [] ∧
      validate_data_quality cleanDF "out" "ts" =
        Except.error "ValueError: can not infer schema from empty dataset" := by
  constructor
  · rfl
  · rfl

/-- Witness for C3 on a concrete dataset: a single all-null row makes every
presence rule fire with count 1, and the DocumentCount record of the
resulting report indeed has a positive count. -/
theorem c3_positive_counts_witness :
    1 ≤ (Issue.mk "DocumentCount" "Missing required field: DocumentCount" 1).count :=
  (c3_positive_counts (DataFrame.mk referenced_columns [[]])).1
    (Issue.mk "DocumentCount" "Missing required field: DocumentCount" 1) (by decide)
